import Mathlib

/-!
Verification of the code-execution sandbox of the QTA exam system,
embedded from src/src/utils/code_runner.py.

The sandbox runs an untrusted Python snippet on a background thread with
the process-wide streams sys.stdin / sys.stdout / sys.stderr redirected to
per-call buffers, joins the thread with a wall-clock timeout, and converts
every failure into a returned (succeeded, stdout, stderr) triple.

The Python-level behaviour of an arbitrary snippet cannot itself be
computed here, so a snippet execution is abstracted by `SnippetBehavior`:
what the call `exec(code, exec_globals)` on the background thread does.
Everything downstream of that point — the stream redirection, the
try/except/finally structure, the result queue, the join-with-timeout and
its two fallback returns, and both test harnesses — is translated
directly from the source.
-/

/-- Abstraction of one run of `exec(code, exec_globals)` inside `execute`
(code_runner.py line 78): the snippet either returns normally having
written `out` to the captured stdout and `err` to the captured stderr,
raises an `Exception` whose `traceback.format_exc()` text is `tb`
(caught by line 86 `except Exception`), raises a `BaseException` that is
not an `Exception` — Python `SystemExit` or `KeyboardInterrupt` — which
line 86 does not catch, so nothing is queued although the `finally` at
line 91 still runs and the thread terminates, or fails to finish within
`EXECUTION_TIMEOUT` seconds (`diverges`). -/
inductive SnippetBehavior where
  | terminates (out err : String)
  | raisesExc (tb : String)
  | raisesBase
  | diverges
deriving DecidableEq, Repr

/-- Semantics oracle for Python: for each source text and stdin payload,
the behaviour of running that snippet. The sandbox model is parametric in
this oracle; claims hold for every oracle, and concrete oracles
instantiate the witnesses. -/
def PyExec : Type := String → String → SnippetBehavior

/-- One value of a process-wide stream variable (sys.stdin, sys.stdout or
sys.stderr): either whatever object the variable held before the call
(`prev`), or one of the per-call buffers created at lines 54 and 57-58 of
code_runner.py — `inBuf data` is `io.StringIO(input_data)`, `outBuf` and
`errBuf` are the fresh `stdout_capture` and `stderr_capture` objects. -/
inductive StreamV where
  | prev (n : Nat)
  | inBuf (data : String)
  | outBuf
  | errBuf
deriving DecidableEq, Repr

/-- The process-wide triple (sys.stdin, sys.stdout, sys.stderr). -/
structure Streams where
  stdin : StreamV
  stdout : StreamV
  stderr : StreamV
deriving DecidableEq, Repr

/-- The real streams in place before any sandbox call. -/
def realStreams : Streams :=
  { stdin := StreamV.prev 0, stdout := StreamV.prev 1, stderr := StreamV.prev 2 }

/-- EXECUTION_TIMEOUT, code_runner.py line 23: timeout in seconds. -/
def EXECUTION_TIMEOUT : Nat := 5

/-- The timeout diagnostic built at line 107:
f-string 代码执行超时（超过{EXECUTION_TIMEOUT}秒） . -/
def timeoutMessage : String :=
  "代码执行超时（超过" ++ toString EXECUTION_TIMEOUT ++ "秒）"

/-- The fallback diagnostic at line 113, returned when the thread has
finished but `result_queue` is empty: 执行异常：无法获取结果 . -/
def queueEmptyMessage : String := "执行异常：无法获取结果"

/-- Status of the background thread observed by the foreground caller
after `thread.join(timeout=EXECUTION_TIMEOUT)` at line 103: either the
thread is still alive, or it finished and `result_queue` holds at most
one queued triple. -/
inductive ThreadStatus where
  | running
  | finished (queued : Option (Bool × String × String))
deriving DecidableEq, Repr

/-- The `dangerous_functions` list of code_runner.py lines 67-72, removed
from the builtins mapping before the snippet runs. -/
def dangerous_functions : List String :=
  ["eval", "exec", "compile", "open", "__import__",
   "globals", "locals", "vars", "dir",
   "getattr", "setattr", "delattr", "hasattr",
   "exit", "quit"]

/-- The `safe_builtins` construction of lines 64-74: a copy of the host
builtins mapping (represented here by its list of names) with every name
in `dangerous_functions` popped. -/
def safe_builtins (builtins : List String) : List String :=
  builtins.filter (fun n => !(dangerous_functions.contains n))

/-- Model of Python global-name resolution for a snippet whose first
action is a call to the global name `name`: `exec_globals` (line 77) maps
`__builtins__` to the restricted mapping, so a global name not bound in
the snippet is looked up among `builtins`; if it is absent, Python raises
`NameError`, which is an `Exception`. `found` is whatever the snippet
would do if the name were available. -/
def snippetCallingName (builtins : List String) (name : String)
    (found : SnippetBehavior) : SnippetBehavior :=
  if builtins.contains name then found
  else SnippetBehavior.raisesExc ("NameError: name " ++ name ++ " is not defined")

/-- Model of the Python method str.strip() with no argument, used at
lines 84, 147, 153, 190 and 205: remove leading and trailing whitespace.
Defined over the character list so that concrete runs reduce inside the
kernel. -/
def pyStrip (s : String) : String :=
  String.mk
    (((s.toList.dropWhile Char.isWhitespace).reverse.dropWhile
        Char.isWhitespace).reverse)

/-- Model of the body of `execute` (code_runner.py lines 45-95) acting on
the process-wide streams `s`. It saves the three current streams (lines
48-50), redirects them to the per-call buffers (lines 54-60), runs the
snippet, and then: on normal return queues `(True, output.strip(),
error.strip())` (line 84); on a caught `Exception` queues `(False, "",
traceback.format_exc())` (lines 86-89); on an uncaught `BaseException`
queues nothing; in all three of those cases the `finally` (lines 91-95)
restores the saved streams. If the snippet diverges, control never
leaves line 78: nothing is queued and the streams stay redirected. -/
def executeModel (b : SnippetBehavior) (input_data : String) (s : Streams) :
    ThreadStatus × Streams :=
  let old_stdin := s.stdin
  let old_stdout := s.stdout
  let old_stderr := s.stderr
  let redirected : Streams :=
    { stdin := StreamV.inBuf input_data, stdout := StreamV.outBuf, stderr := StreamV.errBuf }
  match b with
  | SnippetBehavior.diverges => (ThreadStatus.running, redirected)
  | SnippetBehavior.terminates out err =>
      (ThreadStatus.finished (some (true, pyStrip out, pyStrip err)),
       { stdin := old_stdin, stdout := old_stdout, stderr := old_stderr })
  | SnippetBehavior.raisesExc tb =>
      (ThreadStatus.finished (some (false, "", tb)),
       { stdin := old_stdin, stdout := old_stdout, stderr := old_stderr })
  | SnippetBehavior.raisesBase =>
      (ThreadStatus.finished none,
       { stdin := old_stdin, stdout := old_stdout, stderr := old_stderr })

/-- Model of `run_python_code` (lines 26-113) with the process-wide
stream state made explicit: starts `execute` on a daemon thread, joins it
for `EXECUTION_TIMEOUT` seconds, and returns, paired with the stream
state at the moment of return. If the thread is still alive the timeout
triple of line 107 is returned — the abandoned thread has not run its
`finally`, so the streams are whatever `execute` left them. Otherwise
`result_queue.get_nowait()` returns the queued triple, or the
`queue.Empty` fallback of line 113 applies. -/
def run_python_code_st (py : PyExec) (code input_data : String) (s : Streams) :
    (Bool × String × String) × Streams :=
  match executeModel (py code input_data) input_data s with
  | (ThreadStatus.running, s1) => ((false, "", timeoutMessage), s1)
  | (ThreadStatus.finished (some r), s1) => (r, s1)
  | (ThreadStatus.finished none, s1) => ((false, "", queueEmptyMessage), s1)

/-- The result triple of `run_python_code`, run from the real streams.
(The result does not depend on the incoming stream state; see
`run_result_stream_independent`.) The second argument of the Python
function, `input_data`, defaults to the empty string; call sites that use
the default pass "" explicitly here. -/
def run_python_code (py : PyExec) (code input_data : String) :
    Bool × String × String :=
  (run_python_code_st py code input_data realStreams).1

/-- A test case dict `{"input": ..., "expected_output": ...}`; a missing
key is `none` and `tc.get(key, "")` is modelled by `Option.getD`. -/
structure TestCase where
  input : Option String
  expected_output : Option String
deriving DecidableEq, Repr

/-- One entry of the results list built by `validate_test_cases` (lines
159-165) or `run_code_with_function` (lines 211-217). -/
structure Verdict where
  passed : Bool
  input : String
  expected_output : String
  actual_output : String
  error : String
deriving DecidableEq, Repr

/-- One iteration of the `validate_test_cases` loop body (lines 145-165):
reads the two keys with default "", strips the expected output, runs the
code on the case input, strips the actual output, compares, and builds
the verdict dict; `error` is the sandbox error only when the run did not
succeed. -/
def validate_case (py : PyExec) (code : String) (tc : TestCase) : Verdict :=
  let input_data := tc.input.getD ""
  let expected := pyStrip (tc.expected_output.getD "")
  let r := run_python_code py code input_data
  let success := r.1
  let output := r.2.1
  let error := r.2.2
  let actual := pyStrip output
  let passed := success && (actual == expected)
  { passed := passed, input := input_data, expected_output := expected,
    actual_output := actual, error := if success then "" else error }

/-- `validate_test_cases` (lines 116-167): iterates the cases in order,
appending one verdict each; `all_passed` starts `True` and is cleared
whenever a case does not pass, which is the conjunction over the list. -/
def validate_test_cases (py : PyExec) (code : String) :
    List TestCase → Bool × List Verdict
  | [] => (true, [])
  | tc :: rest =>
      let v := validate_case py code tc
      let p := validate_test_cases py code rest
      (v.passed && p.1, v :: p.2)

/-- The `test_code` f-string of lines 193-199: a newline, the user code,
a blank line, the comment line, `result = <function_name>(<input>)`, and
`print(result)`. -/
def build_test_code (code function_name input_data : String) : String :=
  "\n" ++ code ++ "\n\n# 调用函数并打印结果\nresult = " ++ function_name ++
    "(" ++ input_data ++ ")\nprint(result)\n"

/-- One iteration of the `run_code_with_function` loop body (lines
188-217): same as `validate_case` except that the executed snippet is
`build_test_code`, stdin is the default "" (line 202 passes only
`test_code`), and the verdict `input` field is the synthesized call
expression f-string f"{function_name}({input_data})" of line 213. -/
def run_case_with_function (py : PyExec) (code function_name : String)
    (tc : TestCase) : Verdict :=
  let input_data := tc.input.getD ""
  let expected := pyStrip (tc.expected_output.getD "")
  let test_code := build_test_code code function_name input_data
  let r := run_python_code py test_code ""
  let success := r.1
  let output := r.2.1
  let error := r.2.2
  let actual := pyStrip output
  let passed := success && (actual == expected)
  { passed := passed, input := function_name ++ "(" ++ input_data ++ ")",
    expected_output := expected,
    actual_output := actual, error := if success then "" else error }

/-- `run_code_with_function` (lines 170-219): same aggregation shape as
`validate_test_cases`. -/
def run_code_with_function (py : PyExec) (code function_name : String) :
    List TestCase → Bool × List Verdict
  | [] => (true, [])
  | tc :: rest =>
      let v := run_case_with_function py code function_name tc
      let p := run_code_with_function py code function_name rest
      (v.passed && p.1, v :: p.2)

/-- A snippet that always diverges (e.g. `while True: pass`). -/
def pyDiv : PyExec := fun _ _ => SnippetBehavior.diverges

/-- A snippet that always terminates printing 1. -/
def pyOk : PyExec := fun _ _ => SnippetBehavior.terminates "1" ""

/-- A snippet that raises a non-Exception BaseException
(e.g. `raise SystemExit`). -/
def pyBase : PyExec := fun _ _ => SnippetBehavior.raisesBase

/-- A snippet that raises an ordinary Exception with traceback text
`TB`. -/
def pyExc : PyExec := fun _ _ => SnippetBehavior.raisesExc "TB"

/-- The result triple of a run does not depend on the stream state the
call starts from: `executeModel` threads the state but never reads it
into the queued result. -/
theorem run_result_stream_independent (py : PyExec) (code input_data : String)
    (s t : Streams) :
    (run_python_code_st py code input_data s).1 =
      (run_python_code_st py code input_data t).1 := by
  cases hb : py code input_data <;>
    simp [run_python_code_st, executeModel, hb]

/-- C1: the claim that sys.stdin/stdout/stderr equal their entry values
at the moment run_python_code returns, on every exit path including the
timeout path, is false: when the join times out, the abandoned thread has
not executed its finally block, so at the moment of return the streams
are still the per-call buffers. Concretely, a diverging snippet started
from the real streams leaves the streams redirected when the call
returns. -/
theorem c1_counterexample :
    (run_python_code_st pyDiv "while True: pass" "" realStreams).2 ≠ realStreams := by
  decide

/-- C1 (amended): the process-wide streams are restored to their entry
values at the moment run_python_code returns on every path on which the
background thread finished within the timeout — normal completion, a
caught Exception, and an uncaught BaseException; on the timeout path the
call returns with the streams still redirected to the per-call buffers
(io.StringIO of the input, and the two capture buffers), restored only
if the abandoned thread later completes. -/
theorem c1_streams_restored_unless_timeout (py : PyExec) (code input_data : String)
    (s : Streams) :
    (py code input_data ≠ SnippetBehavior.diverges →
      (run_python_code_st py code input_data s).2 = s) ∧
    (py code input_data = SnippetBehavior.diverges →
      (run_python_code_st py code input_data s).2 =
        { stdin := StreamV.inBuf input_data, stdout := StreamV.outBuf,
          stderr := StreamV.errBuf }) := by
  constructor
  · intro h
    cases hb : py code input_data with
    | diverges => exact absurd hb h
    | terminates out err => simp [run_python_code_st, executeModel, hb]
    | raisesExc tb => simp [run_python_code_st, executeModel, hb]
    | raisesBase => simp [run_python_code_st, executeModel, hb]
  · intro h
    simp [run_python_code_st, executeModel, h]

/-- C1 witness: a terminating run restores the real streams; a diverging
run returns with the streams still redirected. -/
theorem c1_streams_restored_unless_timeout_witness :
    (run_python_code_st pyOk "print(1)" "" realStreams).2 = realStreams ∧
    (run_python_code_st pyDiv "while True: pass" "" realStreams).2 =
      { stdin := StreamV.inBuf "", stdout := StreamV.outBuf,
        stderr := StreamV.errBuf } :=
  ⟨(c1_streams_restored_unless_timeout pyOk "print(1)" "" realStreams).1 (by decide),
   (c1_streams_restored_unless_timeout pyDiv "while True: pass" "" realStreams).2 rfl⟩

/-- C2: the claim that on timeout the error string is exactly
"execution timed out (exceeded 5 seconds)" is false: the string the code
builds at line 107 is the Chinese-language message, which is a different
string. -/
theorem c2_counterexample :
    (run_python_code pyDiv "while True: pass" "").2.2 = "代码执行超时（超过5秒）" ∧
    "代码执行超时（超过5秒）" ≠ "execution timed out (exceeded 5 seconds)" := by
  constructor
  · rfl
  · decide

/-- C2 (amended): for every snippet whose execution does not finish
within the timeout, run_python_code returns succeeded=false, empty
stdout, and exactly the message 代码执行超时（超过<timeout>秒） — the
source rendering of "execution timed out (exceeded <timeout> seconds)" —
with the configured EXECUTION_TIMEOUT value (5) substituted in. -/
theorem c2_timeout_result (py : PyExec) (code input_data : String)
    (h : py code input_data = SnippetBehavior.diverges) :
    run_python_code py code input_data =
      (false, "", "代码执行超时（超过" ++ toString EXECUTION_TIMEOUT ++ "秒）") := by
  simp [run_python_code, run_python_code_st, executeModel, h, timeoutMessage]

/-- C2 witness: the timeout triple on a concrete diverging snippet. -/
theorem c2_timeout_result_witness :
    run_python_code pyDiv "while True: pass" "" =
      (false, "", "代码执行超时（超过" ++ toString EXECUTION_TIMEOUT ++ "秒）") :=
  c2_timeout_result pyDiv "while True: pass" "" rfl

/-- C3: the claim that any error raised during the snippet execution
yields an error string containing the error type/message/traceback is
false for a raised BaseException outside the Exception class: a snippet
doing `raise SystemExit` is not caught by line 86 `except Exception`, so
nothing is queued and the queue.Empty fallback of line 113 returns the
generic message, which does not contain the error type SystemExit. -/
theorem c3_counterexample :
    (run_python_code pyBase "raise SystemExit" "").1 = false ∧
    (run_python_code pyBase "raise SystemExit" "").2.2 = queueEmptyMessage ∧
    ¬ ("SystemExit".toList <:+: queueEmptyMessage.toList) := by
  refine ⟨rfl, rfl, ?_⟩
  decide

/-- C3 (amended): run_python_code always returns a (succeeded, stdout,
stderr) triple and never re-raises the snippet error to the caller; an
error of the catchable Exception class yields succeeded=false, empty
stdout and an error string that IS the traceback text
(traceback.format_exc()); a raised BaseException outside Exception
(SystemExit, KeyboardInterrupt) also yields succeeded=false and empty
stdout, but the generic fallback diagnostic 执行异常：无法获取结果
instead of the traceback. -/
theorem c3_error_result (py : PyExec) (code input_data tb : String) :
    (py code input_data = SnippetBehavior.raisesExc tb →
      run_python_code py code input_data = (false, "", tb)) ∧
    (py code input_data = SnippetBehavior.raisesBase →
      run_python_code py code input_data = (false, "", queueEmptyMessage)) := by
  constructor
  · intro h
    simp [run_python_code, run_python_code_st, executeModel, h]
  · intro h
    simp [run_python_code, run_python_code_st, executeModel, h]

/-- C3 witness: a concrete Exception-raising snippet returns its
traceback text, and a concrete BaseException-raising snippet returns the
generic fallback. -/
theorem c3_error_result_witness :
    run_python_code pyExc "1/0" "" = (false, "", "TB") ∧
    run_python_code pyBase "raise SystemExit" "" = (false, "", queueEmptyMessage) :=
  ⟨(c3_error_result pyExc "1/0" "" "TB").1 rfl,
   (c3_error_result pyBase "raise SystemExit" "" "TB").2 rfl⟩

/-- C4: every name on the dangerous_functions blocklist — the dynamic
evaluation and compilation names eval/exec/compile, the file opener open,
the import hook __import__, the namespace introspectors
globals/locals/vars/dir, the attribute operations
getattr/setattr/delattr/hasattr, and the terminators exit/quit — is
absent from the restricted builtins mapping the snippet executes under,
whatever the host builtins are; and a snippet attempting a removed
capability, e.g. a call to open, raises NameError inside the sandbox and
so yields succeeded=false with empty stdout, never a successful run with
a side effect, and never an exception in the host caller (the call still
returns a triple). -/
theorem c4_dangerous_removed :
    (∀ bs n, n ∈ dangerous_functions → n ∉ safe_builtins bs) ∧
    ["eval", "exec", "compile", "open", "__import__", "globals", "locals",
     "vars", "dir", "getattr", "setattr", "delattr", "hasattr",
     "exit", "quit"] ⊆ dangerous_functions ∧
    (∀ (bs : List String) (found : SnippetBehavior) (code input_data : String),
      (run_python_code (fun _ _ =>
          snippetCallingName (safe_builtins bs) "open" found) code input_data).1
        = false ∧
      (run_python_code (fun _ _ =>
          snippetCallingName (safe_builtins bs) "open" found) code input_data).2.1
        = "") := by
  have hA : ∀ bs n, n ∈ dangerous_functions → n ∉ safe_builtins bs := by
    intro bs n h hmem
    have h2 := (List.mem_filter.mp hmem).2
    have h3 : dangerous_functions.contains n = true := by simpa using h
    rw [h3] at h2
    simp at h2
  refine ⟨hA, by decide, ?_⟩
  intro bs found code input_data
  have hnm : ¬ ("open" ∈ safe_builtins bs) := hA bs "open" (by decide)
  constructor <;>
    simp [run_python_code, run_python_code_st, executeModel,
      snippetCallingName, hnm]

/-- C4 witness: with a concrete host-builtins list that does contain
open, the restricted namespace drops it, and the attempted
open(/etc/passwd) snippet fails with succeeded=false, empty stdout. -/
theorem c4_dangerous_removed_witness :
    "open" ∉ safe_builtins ["print", "open", "len", "eval"] ∧
    (run_python_code (fun _ _ =>
        snippetCallingName (safe_builtins ["print", "open", "len", "eval"])
          "open" (SnippetBehavior.terminates "LEAKED" ""))
      "open(/etc/passwd)" "").1 = false :=
  ⟨c4_dangerous_removed.1 ["print", "open", "len", "eval"] "open" (by decide),
   (c4_dangerous_removed.2.2 ["print", "open", "len", "eval"]
     (SnippetBehavior.terminates "LEAKED" "") "open(/etc/passwd)" "").1⟩

/-- C5: in direct mode the verdict passed field is true iff the sandbox
run succeeded and the trimmed actual stdout equals the trimmed
expected_output, and the verdict error field is the sandbox error text
exactly when the run did not succeed and the empty string otherwise (so
a plain mismatch on a successful run gives passed=false, error=""). -/
theorem c5_direct_verdict (py : PyExec) (code : String) (tc : TestCase) :
    ((validate_case py code tc).passed = true ↔
      (run_python_code py code (tc.input.getD "")).1 = true ∧
      pyStrip (run_python_code py code (tc.input.getD "")).2.1
        = pyStrip (tc.expected_output.getD "")) ∧
    (validate_case py code tc).error =
      (if (run_python_code py code (tc.input.getD "")).1 = true then ""
       else (run_python_code py code (tc.input.getD "")).2.2) := by
  constructor
  · simp [validate_case, Bool.and_eq_true, beq_iff_eq]
  · simp [validate_case]

/-- C5 witness: a successful run whose output 1 mismatches the expected
output 2 gives a verdict with passed=false and error="". -/
theorem c5_direct_verdict_witness :
    ((validate_case pyOk "print(1)"
        { input := some "", expected_output := some "2" }).passed = true ↔
      (run_python_code pyOk "print(1)" "").1 = true ∧
      pyStrip (run_python_code pyOk "print(1)" "").2.1 = pyStrip "2") ∧
    (validate_case pyOk "print(1)"
        { input := some "", expected_output := some "2" }).error =
      (if (run_python_code pyOk "print(1)" "").1 = true then ""
       else (run_python_code pyOk "print(1)" "").2.2) :=
  c5_direct_verdict pyOk "print(1)" { input := some "", expected_output := some "2" }

/-- C6: in both harnesses the returned all_passed flag is the conjunction
of the passed fields of all produced verdicts, and the empty test-case
list yields all_passed=true with an empty verdict list. -/
theorem c6_all_passed_conjunction (py : PyExec) (code function_name : String)
    (tcs : List TestCase) :
    (validate_test_cases py code tcs).1
      = (validate_test_cases py code tcs).2.all (fun v => v.passed) ∧
    (run_code_with_function py code function_name tcs).1
      = (run_code_with_function py code function_name tcs).2.all
          (fun v => v.passed) ∧
    validate_test_cases py code [] = (true, []) ∧
    run_code_with_function py code function_name [] = (true, []) := by
  refine ⟨?_, ?_, rfl, rfl⟩
  · induction tcs with
    | nil => rfl
    | cons tc rest ih => simp [validate_test_cases, List.all_cons, ih]
  · induction tcs with
    | nil => rfl
    | cons tc rest ih => simp [run_code_with_function, List.all_cons, ih]

/-- C7: both harnesses produce exactly one verdict per supplied test
case, in the order of the supplied list — each list of verdicts is the
elementwise image of the test-case list, whatever each case does, so no
case can suppress the verdicts of the others. -/
theorem c7_verdict_per_case (py : PyExec) (code function_name : String)
    (tcs : List TestCase) :
    (validate_test_cases py code tcs).2 = tcs.map (validate_case py code) ∧
    (run_code_with_function py code function_name tcs).2
      = tcs.map (run_case_with_function py code function_name) ∧
    (validate_test_cases py code tcs).2.length = tcs.length ∧
    (run_code_with_function py code function_name tcs).2.length = tcs.length := by
  have h1 : (validate_test_cases py code tcs).2
      = tcs.map (validate_case py code) := by
    induction tcs with
    | nil => rfl
    | cons tc rest ih => simp [validate_test_cases, ih]
  have h2 : (run_code_with_function py code function_name tcs).2
      = tcs.map (run_case_with_function py code function_name) := by
    clear h1
    induction tcs with
    | nil => rfl
    | cons tc rest ih => simp [run_code_with_function, ih]
  exact ⟨h1, h2, by rw [h1]; simp, by rw [h2]; simp⟩

/-- C8: in function-call mode each test case is run on the synthesized
snippet build_test_code — the user code followed by
result = function_name(input) and print(result) — through the sandbox
with empty stdin, and the verdict is exactly the direct-mode verdict of
that synthesized snippet on empty stdin (same passed/expected/actual/
error comparison rule), except that its input field shows the call
expression. -/
theorem c8_function_mode (py : PyExec) (code function_name : String)
    (tc : TestCase) :
    build_test_code code function_name (tc.input.getD "")
      = "\n" ++ code ++ "\n\n# 调用函数并打印结果\nresult = " ++
          (function_name ++ "(" ++ tc.input.getD "" ++ ")") ++
          "\nprint(result)\n" ∧
    run_case_with_function py code function_name tc
      = { validate_case py
            (build_test_code code function_name (tc.input.getD ""))
            { input := some "", expected_output := tc.expected_output } with
          input := function_name ++ "(" ++ tc.input.getD "" ++ ")" } := by
  constructor
  · simp [build_test_code, String.append_assoc]
  · rfl

/-- C9: two consecutive calls of run_python_code on the same code and
input — the second starting from whatever stream state the first left
behind — return the same succeeded flag and the same stdout: the result
triple never reads the incoming stream state, so nothing captured or
redirected by one evaluation leaks into the next result. -/
theorem c9_consecutive_runs_agree (py : PyExec) (code input_data : String)
    (s : Streams) :
    ((run_python_code_st py code input_data
        ((run_python_code_st py code input_data s).2)).1).1
      = ((run_python_code_st py code input_data s).1).1 ∧
    ((run_python_code_st py code input_data
        ((run_python_code_st py code input_data s).2)).1).2.1
      = ((run_python_code_st py code input_data s).1).2.1 := by
  have h := run_result_stream_independent py code input_data
    ((run_python_code_st py code input_data s).2) s
  exact ⟨congrArg (fun r => r.1) h, congrArg (fun r => r.2.1) h⟩

/-- C10: the verdict input field is the synthesized call expression
function_name(input) in function-call mode but the raw test-case input
in direct mode, and a test case missing its input or expected_output key
is read with the empty string as default in both modes. -/
theorem c10_verdict_input_fields (py : PyExec) (code function_name : String)
    (tc : TestCase) (e : Option String) :
    (run_case_with_function py code function_name tc).input
      = function_name ++ "(" ++ tc.input.getD "" ++ ")" ∧
    (validate_case py code tc).input = tc.input.getD "" ∧
    (validate_case py code { input := none, expected_output := e }).input
      = "" ∧
    (validate_case py code
        { input := none, expected_output := none }).expected_output = "" ∧
    (run_case_with_function py code function_name
        { input := none, expected_output := none }).input
      = function_name ++ "(" ++ "" ++ ")" := by
  refine ⟨rfl, rfl, rfl, ?_, rfl⟩
  show pyStrip (Option.getD none "") = ""
  decide
